import Mathlib

/-
Verification of the query-builder specification of the gtc-exposure notebook
script (src/notebooks/esa.py).

The script issues one chained query against a remote imagery service:
  collection = ee.ImageCollection("COPERNICUS/S2_SR")
                 .filterDate('2018-01-01', '2018-01-02')
                 .filterBounds(ee.Geometry.Point(-122.1, 37.2))
                 .select('NDVI')
  print(collection.getInfo())
  print(type(collection))
The QueryBuilder operations (create, withDateRange, withSpatialFilter,
withBands, resolve) are the spec's minimal reusable shape of that chain; the
remote service client (the ee library) is an external collaborator, so those
operations are modelled from the spec.  The script itself (the order of the
calls, the arguments, the use after getInfo) is embedded from the source.

Coordinates are decimal degrees with one fractional digit in the source
(-122.1, 37.2); they are held exactly as integers in tenths of a degree
(deci-degrees), so -122.1 is -1221 and the longitude bound 180 is 1800.
Calendar dates are ISO yyyy-mm-dd strings; lexicographic string order on such
strings coincides with calendar order, and is given by listCharLe below.
-/

namespace Esa

/-- Strict order on characters, by code point. -/
def charLt (a b : Char) : Bool := decide (a.toNat < b.toNat)

/-- Lexicographic non-strict order on character lists. -/
def listCharLe : List Char → List Char → Bool
  | [], _ => true
  | _ :: _, [] => false
  | a :: as, b :: bs =>
    if charLt a b then true
    else if charLt b a then false
    else listCharLe as bs

/-- Lexicographic strict order on character lists. -/
def listCharLt : List Char → List Char → Bool
  | [], [] => false
  | [], _ :: _ => true
  | _ :: _, [] => false
  | a :: as, b :: bs =>
    if charLt a b then true
    else if charLt b a then false
    else listCharLt as bs

/-- Lexicographic order on strings (date order for ISO yyyy-mm-dd dates). -/
def strLe (a b : String) : Bool := listCharLe a.data b.data

/-- Strict lexicographic order on strings. -/
def strLt (a b : String) : Bool := listCharLt a.data b.data

/-- The two lexicographic orders are complementary: b < a iff not (a ≤ b). -/
theorem listCharLt_iff_not_le (a b : List Char) :
    listCharLt b a = true ↔ listCharLe a b = false := by
  induction a generalizing b with
  | nil =>
    cases b with
    | nil => simp [listCharLt, listCharLe]
    | cons y ys => simp [listCharLt, listCharLe]
  | cons x xs ih =>
    cases b with
    | nil => simp [listCharLt, listCharLe]
    | cons y ys =>
      simp only [listCharLt, listCharLe]
      by_cases h1 : charLt x y = true
      · by_cases h2 : charLt y x = true
        · exfalso
          simp only [charLt, decide_eq_true_eq] at h1 h2
          omega
        · simp [h1, h2]
      · by_cases h2 : charLt y x = true
        · simp [h1, h2]
        · simp [h1, h2, ih]

/-- strLt and strLe are complementary. -/
theorem strLt_iff_not_le (a b : String) : strLt b a = true ↔ strLe a b = false :=
  listCharLt_iff_not_le a.data b.data

/-- A geographic point; lon and lat are in tenths of a degree (deci-degrees),
so the source's Point(-122.1, 37.2) is (lon, lat) = (-1221, 372). -/
structure GeoPoint where
  lon : Int
  lat : Int
deriving DecidableEq

/-- Well-formed coordinates: longitude in [-180, 180] degrees and latitude in
[-90, 90] degrees, i.e. [-1800, 1800] and [-900, 900] deci-degrees. -/
def GeoPoint.wellFormed (p : GeoPoint) : Bool :=
  decide (-1800 ≤ p.lon) && decide (p.lon ≤ 1800) &&
    decide (-900 ≤ p.lat) && decide (p.lat ≤ 900)

/-- Modelled from the spec: the filters a Query accumulates (DateRange,
SpatialFilter, BandSelector); the ee client holding them is external. -/
inductive QFilter where
  | dateRange (start stop : String)
  | spatial (p : GeoPoint)
  | bands (names : List String)
deriving DecidableEq

/-- Modelled from the spec: a Query owns one collection identifier and an
ordered sequence of applied filters. -/
structure Query where
  collectionId : String
  filters : List QFilter
deriving DecidableEq

/-- Modelled from the spec: the error kinds of section 7 of the spec. -/
inductive QError where
  | InvalidIdentifier
  | InvalidRange
  | InvalidCoordinate
  | EmptySelection
  | ServiceUnavailable
  | AuthenticationRequired
deriving DecidableEq

/-- Modelled from the spec: create(collectionId) constructs a Query bound to
the identifier, failing with InvalidIdentifier if it is empty. -/
def create (collectionId : String) : Except QError Query :=
  if collectionId = "" then .error .InvalidIdentifier
  else .ok { collectionId := collectionId, filters := [] }

/-- Modelled from the spec: withDateRange appends the date filter, failing
with InvalidRange if start > stop. -/
def withDateRange (q : Query) (start stop : String) : Except QError Query :=
  if strLe start stop then
    .ok { q with filters := q.filters ++ [.dateRange start stop] }
  else .error .InvalidRange

/-- Modelled from the spec: withSpatialFilter appends a spatial constraint,
failing with InvalidCoordinate on out-of-range coordinates. -/
def withSpatialFilter (q : Query) (p : GeoPoint) : Except QError Query :=
  if p.wellFormed then
    .ok { q with filters := q.filters ++ [.spatial p] }
  else .error .InvalidCoordinate

/-- Modelled from the spec: withBands appends a band-selection filter, failing
with EmptySelection if the band list is empty. -/
def withBands (q : Query) (names : List String) : Except QError Query :=
  if names = [] then .error .EmptySelection
  else .ok { q with filters := q.filters ++ [.bands names] }

/-- Modelled from the spec: the rectangular footprint of an imagery record,
in deci-degrees; the remote dataset schema is owned by the external service. -/
structure Region where
  lonMin : Int
  lonMax : Int
  latMin : Int
  latMax : Int
deriving DecidableEq

/-- Whether a point lies in (intersects) a region. -/
def Region.containsPoint (r : Region) (p : GeoPoint) : Bool :=
  decide (r.lonMin ≤ p.lon) && decide (p.lon ≤ r.lonMax) &&
    decide (r.latMin ≤ p.lat) && decide (p.lat ≤ r.latMax)

/-- Modelled from the spec: one time-stamped, geolocated imagery record of a
remote collection, with its named bands. -/
structure Entry where
  date : String
  region : Region
  bands : List String
deriving DecidableEq

/-- Modelled from the spec: the QueryResult payload, read-only to the caller. -/
structure QueryResult where
  entries : List Entry
deriving DecidableEq

/-- Modelled from the spec: the remote service state, an external collaborator
holding named collections of entries; reachable models network availability. -/
structure Remote where
  reachable : Bool
  data : List (String × List Entry)
deriving DecidableEq

/-- Modelled from the spec: the opaque authenticated-session handle of the
session/authentication provider. -/
structure Session where
  valid : Bool
deriving DecidableEq

/-- The entries of the named collection in the remote dataset. -/
def lookupCollection (data : List (String × List Entry)) (id : String) :
    List Entry :=
  match data.find? (fun kv => kv.1 == id) with
  | some kv => kv.2
  | none => []

/-- Modelled from the spec: the meaning of one accumulated filter on the
entries of a collection.  A date filter keeps entries dated within the range
(inclusive), a spatial filter keeps entries whose footprint contains the
point, and a band selection keeps entries carrying at least one selected band
and retains exactly the selected bands in them. -/
def applyFilter : QFilter → List Entry → List Entry
  | .dateRange start stop, entries =>
      entries.filter (fun en => strLe start en.date && strLe en.date stop)
  | .spatial p, entries =>
      entries.filter (fun en => en.region.containsPoint p)
  | .bands names, entries =>
      (entries.filter (fun en => en.bands.any (fun b => decide (b ∈ names)))).map
        (fun en => { en with bands := en.bands.filter (fun b => decide (b ∈ names)) })

/-- Modelled from the spec: resolve sends the accumulated filter sequence to
the external service and returns its response; it fails with
AuthenticationRequired without a valid session and with ServiceUnavailable
when the collaborator cannot be reached. -/
def resolve (sess : Option Session) (r : Remote) (q : Query) :
    Except QError QueryResult :=
  match sess with
  | none => .error .AuthenticationRequired
  | some s =>
    if s.valid then
      if r.reachable then
        .ok { entries := q.filters.foldl (fun es f => applyFilter f es)
                (lookupCollection r.data q.collectionId) }
      else .error .ServiceUnavailable
    else .error .AuthenticationRequired

/-- Resolution together with the state it leaves behind: the remote dataset
is returned unchanged, since resolve only re-issues the query. -/
def resolveWithState (sess : Option Session) (r : Remote) (q : Query) :
    Except QError QueryResult × Remote :=
  (resolve sess r q, r)

/-- Which of the spec's error kinds are local validation failures. -/
def isLocalError : QError → Bool
  | .InvalidIdentifier => true
  | .InvalidRange => true
  | .InvalidCoordinate => true
  | .EmptySelection => true
  | .ServiceUnavailable => false
  | .AuthenticationRequired => false

/-- An outcome that can only fail with local validation errors. -/
def errorsLocalOnly {α : Type} : Except QError α → Prop
  | .error e => isLocalError e = true
  | .ok _ => True

/-- An outcome that can only fail with remote errors. -/
def errorsRemoteOnly {α : Type} : Except QError α → Prop
  | .error e => isLocalError e = false
  | .ok _ => True

/-- The pipeline of the spec's end-to-end scenario, mirroring line 13 of
src/notebooks/esa.py through the spec's builder operations. -/
def c1Pipeline : Except QError Query := do
  let q0 ← create "COPERNICUS/S2_SR"
  let q1 ← withDateRange q0 "2018-01-01" "2018-01-02"
  let q2 ← withSpatialFilter q1 { lon := -1221, lat := 372 }
  withBands q2 ["NDVI"]

/-- The query the scenario pipeline builds. -/
def c1ConcreteQuery : Query :=
  { collectionId := "COPERNICUS/S2_SR",
    filters := [.dateRange "2018-01-01" "2018-01-02",
      .spatial { lon := -1221, lat := 372 }, .bands ["NDVI"]] }

/-- The kinds of top-level calls the script makes, in source order. -/
inductive ScriptEvent where
  | authCall
  | initCall
  | buildCall
  | resolveCall
  | readCall
deriving DecidableEq

/-- Embedding of the call trace of src/notebooks/esa.py: ee.Authenticate()
(line 3), ee.Initialize() (line 10), the query chain (line 13),
collection.getInfo() (line 15), type(collection) (line 17). -/
def esaScript : List ScriptEvent :=
  [.authCall, .initCall, .buildCall, .resolveCall, .readCall]

/-- The session provider is initialized before every resolution in a trace. -/
def initBeforeResolve (tr : List ScriptEvent) : Prop :=
  ∀ j : Fin tr.length, tr.get j = .resolveCall →
    ∃ i : Fin tr.length, i < j ∧ tr.get i = .initCall

/-- A trace never reads the query again after a resolution (the discarded
lifecycle the spec describes). -/
def queryDiscardedAfterResolve (tr : List ScriptEvent) : Prop :=
  ∀ i j : Fin tr.length, tr.get i = .resolveCall → i < j → tr.get j ≠ .readCall

/-- The argument forms of the ee select call: a bare band name or a list. -/
inductive BandArg where
  | str (name : String)
  | strList (names : List String)
deriving DecidableEq

/-- The chainable calls of the external ee client that the script uses. -/
inductive EEOp where
  | filterDate (start stop : String)
  | filterBounds (p : GeoPoint)
  | select (arg : BandArg)
deriving DecidableEq

/-- An ee image collection value: its identifier and the ordered calls
chained onto it. -/
structure EEImageCollection where
  id : String
  ops : List EEOp
deriving DecidableEq

/-- ee.ImageCollection(id): a fresh collection handle. -/
def ImageCollection (id : String) : EEImageCollection := { id := id, ops := [] }

/-- The .filterDate(start, stop) chained call. -/
def EEImageCollection.filterDate (c : EEImageCollection) (start stop : String) :
    EEImageCollection :=
  { c with ops := c.ops ++ [.filterDate start stop] }

/-- The .filterBounds(point) chained call. -/
def EEImageCollection.filterBounds (c : EEImageCollection) (p : GeoPoint) :
    EEImageCollection :=
  { c with ops := c.ops ++ [.filterBounds p] }

/-- The .select(bands) chained call. -/
def EEImageCollection.select (c : EEImageCollection) (arg : BandArg) :
    EEImageCollection :=
  { c with ops := c.ops ++ [.select arg] }

/-- ee.Geometry.Point(lon, lat), in deci-degrees. -/
def GeometryPoint (lon lat : Int) : GeoPoint := { lon := lon, lat := lat }

/-- The filter an ee chained call denotes; a bare-string select is the
singleton band selection. -/
def EEOp.toFilter : EEOp → QFilter
  | .filterDate start stop => .dateRange start stop
  | .filterBounds p => .spatial p
  | .select (.str n) => .bands [n]
  | .select (.strList ns) => .bands ns

/-- Modelled from the spec: .getInfo() resolves the accumulated chain against
the remote service (the ee client's semantics are external). -/
def EEImageCollection.getInfo (c : EEImageCollection) (sess : Option Session)
    (r : Remote) : Except QError QueryResult :=
  resolve sess r { collectionId := c.id, filters := c.ops.map EEOp.toFilter }

/-- Embedding of line 13 of src/notebooks/esa.py: the one query the script
builds, with -122.1 and 37.2 held as -1221 and 372 deci-degrees and the
select argument the bare string NDVI. -/
def collection : EEImageCollection :=
  (((ImageCollection "COPERNICUS/S2_SR").filterDate "2018-01-01"
      "2018-01-02").filterBounds (GeometryPoint (-1221) 372)).select
    (.str "NDVI")

/-- Embedding of lines 15 and 17 of src/notebooks/esa.py: the script resolves
the collection with getInfo and then still inspects the collection value. -/
def scriptRun (sess : Option Session) (r : Remote) :
    Except QError QueryResult × EEImageCollection :=
  (collection.getInfo sess r, collection)

/-- A concrete remote entry in the scenario's collection: dated in the
range, with a footprint covering the script's point, carrying the NDVI band
next to another band. -/
def c1Entry : Entry :=
  { date := "2018-01-01",
    region := { lonMin := -1800, lonMax := 1800, latMin := -900, latMax := 900 },
    bands := ["B4", "NDVI"] }

/-- The entry the scenario resolution returns for c1Entry: only the selected
NDVI band is retained. -/
def c1ResultEntry : Entry := { c1Entry with bands := ["NDVI"] }

/-- A concrete reachable remote whose scenario collection holds c1Entry. -/
def c1Remote : Remote :=
  { reachable := true, data := [("COPERNICUS/S2_SR", [c1Entry])] }

/-- C2: for every pair of dates with start ≤ stop, withDateRange succeeds and
appends the date filter; for every pair with start > stop it fails with
InvalidRange. -/
theorem withDateRange_spec (q : Query) (start stop : String) :
    (strLe start stop = true →
      withDateRange q start stop =
        .ok { q with filters := q.filters ++ [.dateRange start stop] }) ∧
    (strLt stop start = true →
      withDateRange q start stop = .error .InvalidRange) := by
  refine ⟨fun h => ?_, fun h => ?_⟩
  · simp [withDateRange, h]
  · rw [strLt_iff_not_le] at h
    simp [withDateRange, h]

/-- Witness for withDateRange_spec at the script's dates and their swap. -/
theorem withDateRange_spec_witness :
    withDateRange { collectionId := "c", filters := [] }
        "2018-01-01" "2018-01-02" =
      .ok { collectionId := "c",
            filters := [QFilter.dateRange "2018-01-01" "2018-01-02"] } ∧
    withDateRange { collectionId := "c", filters := [] }
        "2018-01-02" "2018-01-01" =
      .error .InvalidRange :=
  ⟨(withDateRange_spec { collectionId := "c", filters := [] }
      "2018-01-01" "2018-01-02").1 (by decide),
   (withDateRange_spec { collectionId := "c", filters := [] }
      "2018-01-02" "2018-01-01").2 (by decide)⟩

/-- C3: create constructs a Query bound to the given collection identifier
for every non-empty string, and fails with InvalidIdentifier for the empty
string. -/
theorem create_spec (c : String) :
    (c ≠ "" → create c = .ok { collectionId := c, filters := [] }) ∧
    create "" = .error .InvalidIdentifier := by
  refine ⟨fun h => ?_, ?_⟩
  · simp [create, h]
  · simp [create]

/-- Witness for create_spec at the script's collection identifier. -/
theorem create_spec_witness :
    create "COPERNICUS/S2_SR" =
      .ok { collectionId := "COPERNICUS/S2_SR", filters := [] } :=
  (create_spec "COPERNICUS/S2_SR").1 (by decide)

/-- C4: withSpatialFilter appends a spatial constraint whenever the
coordinates are well-formed (longitude in [-180, 180], latitude in [-90, 90],
i.e. [-1800, 1800] and [-900, 900] deci-degrees), fails with
InvalidCoordinate otherwise, and in particular longitude 200 (2000
deci-degrees) always fails. -/
theorem withSpatialFilter_spec (q : Query) (p : GeoPoint) :
    (p.wellFormed = true →
      withSpatialFilter q p =
        .ok { q with filters := q.filters ++ [.spatial p] }) ∧
    (p.wellFormed = false →
      withSpatialFilter q p = .error .InvalidCoordinate) ∧
    (p.wellFormed = true ↔
      -1800 ≤ p.lon ∧ p.lon ≤ 1800 ∧ -900 ≤ p.lat ∧ p.lat ≤ 900) ∧
    (∀ lat : Int, GeoPoint.wellFormed { lon := 2000, lat := lat } = false) := by
  refine ⟨fun h => ?_, fun h => ?_, ?_, fun lat => ?_⟩
  · simp [withSpatialFilter, h]
  · simp [withSpatialFilter, h]
  · simp [GeoPoint.wellFormed, Bool.and_eq_true, decide_eq_true_eq, and_assoc]
  · have h18 : decide ((2000 : Int) ≤ 1800) = false := rfl
    simp [GeoPoint.wellFormed, h18]

/-- Witness for withSpatialFilter_spec at the script's point and at
longitude 200 degrees. -/
theorem withSpatialFilter_spec_witness :
    withSpatialFilter { collectionId := "c", filters := [] }
        { lon := -1221, lat := 372 } =
      .ok { collectionId := "c",
            filters := [QFilter.spatial { lon := -1221, lat := 372 }] } ∧
    withSpatialFilter { collectionId := "c", filters := [] }
        { lon := 2000, lat := 0 } =
      .error .InvalidCoordinate :=
  ⟨(withSpatialFilter_spec { collectionId := "c", filters := [] }
      { lon := -1221, lat := 372 }).1 (by decide),
   (withSpatialFilter_spec { collectionId := "c", filters := [] }
      { lon := 2000, lat := 0 }).2.1 (by decide)⟩

/-- C5: for every band-name list with at least one element, withBands
succeeds and appends the band-selection filter; for the empty list it fails
with EmptySelection. -/
theorem withBands_spec (q : Query) (names : List String) :
    (names ≠ [] →
      withBands q names = .ok { q with filters := q.filters ++ [.bands names] }) ∧
    (names = [] → withBands q names = .error .EmptySelection) := by
  refine ⟨fun h => ?_, fun h => ?_⟩
  · simp [withBands, h]
  · simp [withBands, h]

/-- Witness for withBands_spec at the script's band list and the empty
list. -/
theorem withBands_spec_witness :
    withBands { collectionId := "c", filters := [] } ["NDVI"] =
      .ok { collectionId := "c", filters := [QFilter.bands ["NDVI"]] } ∧
    withBands { collectionId := "c", filters := [] } [] =
      .error .EmptySelection :=
  ⟨(withBands_spec { collectionId := "c", filters := [] } ["NDVI"]).1
      (by decide),
   (withBands_spec { collectionId := "c", filters := [] } []).2 rfl⟩

/-- C6: resolve is idempotent: resolving the same unmutated Query a second
time, against the state the first resolution left behind, yields the same
QueryResult, and resolution leaves the remote dataset unchanged. -/
theorem resolve_idempotent (sess : Option Session) (r : Remote) (q : Query) :
    (resolveWithState sess (resolveWithState sess r q).2 q).1 =
      (resolveWithState sess r q).1 ∧
    (resolveWithState sess r q).2 = r :=
  ⟨rfl, rfl⟩

/-- C7: the builder calls can only fail with the local validation errors
(InvalidIdentifier, InvalidRange, InvalidCoordinate, EmptySelection), raised
synchronously at the call that supplies the offending argument, and resolve
can only fail with the remote errors (ServiceUnavailable,
AuthenticationRequired); every outcome is a single error or a complete
result, with no retries and no partial results. -/
theorem errors_partition (c : String) (q : Query) (start stop : String)
    (p : GeoPoint) (names : List String) (sess : Option Session) (r : Remote) :
    errorsLocalOnly (create c) ∧
    errorsLocalOnly (withDateRange q start stop) ∧
    errorsLocalOnly (withSpatialFilter q p) ∧
    errorsLocalOnly (withBands q names) ∧
    errorsRemoteOnly (resolve sess r q) := by
  refine ⟨?_, ?_, ?_, ?_, ?_⟩
  · unfold create
    split <;> simp [errorsLocalOnly, isLocalError]
  · unfold withDateRange
    split <;> simp [errorsLocalOnly, isLocalError]
  · unfold withSpatialFilter
    split <;> simp [errorsLocalOnly, isLocalError]
  · unfold withBands
    split <;> simp [errorsLocalOnly, isLocalError]
  · cases sess with
    | none => simp [resolve, errorsRemoteOnly, isLocalError]
    | some s =>
      by_cases hv : s.valid = true
      · by_cases hr : r.reachable = true
        · simp [resolve, hv, hr, errorsRemoteOnly]
        · simp [resolve, hv, hr, errorsRemoteOnly, isLocalError]
      · simp [resolve, hv, errorsRemoteOnly, isLocalError]

/-- C8: in the script the session provider is initialized before the one
resolution; resolve fails with AuthenticationRequired when no session or an
invalid session is supplied, fails with ServiceUnavailable when the remote
collaborator is unreachable, and only ever succeeds with an initialized valid
session and a reachable remote. -/
theorem resolve_requires_session (s : Session) (r : Remote) (q : Query) :
    resolve none r q = .error .AuthenticationRequired ∧
    (s.valid = false → resolve (some s) r q = .error .AuthenticationRequired) ∧
    (s.valid = true → r.reachable = false →
      resolve (some s) r q = .error .ServiceUnavailable) ∧
    (∀ sess res, resolve sess r q = .ok res →
      ∃ s2, sess = some s2 ∧ s2.valid = true ∧ r.reachable = true) ∧
    initBeforeResolve esaScript := by
  refine ⟨rfl, fun hv => ?_, fun hv hr => ?_, fun sess res hok => ?_, ?_⟩
  rotate_right
  · unfold initBeforeResolve
    decide
  · simp [resolve, hv]
  · simp [resolve, hv, hr]
  · cases sess with
    | none => exact Except.noConfusion hok
    | some s2 =>
      by_cases hv2 : s2.valid = true
      · by_cases hr2 : r.reachable = true
        · exact ⟨s2, rfl, hv2, hr2⟩
        · simp [resolve, hv2, hr2] at hok
      · simp [resolve, hv2] at hok

/-- Witness for resolve_requires_session: an invalid session is rejected with
AuthenticationRequired. -/
theorem resolve_requires_session_witness :
    resolve (some { valid := false }) { reachable := true, data := [] }
      { collectionId := "c", filters := [] } =
      .error .AuthenticationRequired :=
  (resolve_requires_session { valid := false } { reachable := true, data := [] }
    { collectionId := "c", filters := [] }).2.1 rfl

/-- C9 as stated is false on the script: line 17 of src/notebooks/esa.py
still reads the query value (type(collection)) after its resolution on
line 15, so the query is not discarded once resolved. -/
theorem query_lifecycle_counterexample :
    ¬ queryDiscardedAfterResolve esaScript := by
  unfold queryDiscardedAfterResolve
  decide

/-- C9 amended: a Query holds one collection identifier and an ordered
sequence of applied filters, each successful builder call appends exactly its
filter while preserving the rest, and resolution mutates neither the Query
nor the remote state; the script, however, reads the Query again after its
resolution rather than discarding it. -/
theorem query_lifecycle_amended (q q2 : Query) (start stop : String)
    (p : GeoPoint) (names : List String) :
    (withDateRange q start stop = .ok q2 →
      q2.collectionId = q.collectionId ∧
      q2.filters = q.filters ++ [.dateRange start stop]) ∧
    (withSpatialFilter q p = .ok q2 →
      q2.collectionId = q.collectionId ∧
      q2.filters = q.filters ++ [.spatial p]) ∧
    (withBands q names = .ok q2 →
      q2.collectionId = q.collectionId ∧
      q2.filters = q.filters ++ [.bands names]) ∧
    (∀ sess r, (resolveWithState sess r q).2 = r) ∧
    esaScript.drop 3 = [.resolveCall, .readCall] := by
  refine ⟨fun h => ?_, fun h => ?_, fun h => ?_, fun sess r => rfl, rfl⟩
  · rw [withDateRange] at h
    split at h
    · injection h with h2
      subst h2
      exact ⟨rfl, rfl⟩
    · exact Except.noConfusion h
  · rw [withSpatialFilter] at h
    split at h
    · injection h with h2
      subst h2
      exact ⟨rfl, rfl⟩
    · exact Except.noConfusion h
  · rw [withBands] at h
    split at h
    · exact Except.noConfusion h
    · injection h with h2
      subst h2
      exact ⟨rfl, rfl⟩

/-- Witness for query_lifecycle_amended: appending the script's date filter
to the empty query. -/
theorem query_lifecycle_amended_witness :
    ({ collectionId := "c",
       filters := [QFilter.dateRange "2018-01-01" "2018-01-02"] } :
        Query).collectionId =
      ({ collectionId := "c", filters := [] } : Query).collectionId ∧
    ({ collectionId := "c",
       filters := [QFilter.dateRange "2018-01-01" "2018-01-02"] } :
        Query).filters =
      ({ collectionId := "c", filters := [] } : Query).filters ++
        [QFilter.dateRange "2018-01-01" "2018-01-02"] :=
  (query_lifecycle_amended { collectionId := "c", filters := [] }
    { collectionId := "c",
      filters := [QFilter.dateRange "2018-01-01" "2018-01-02"] }
    "2018-01-01" "2018-01-02" { lon := 0, lat := 0 } []).1 rfl

/-- C10: the script builds exactly one query whose accumulated sequence is
the date filter, then the spatial filter, then the band selection, in that
fixed order starting from the collection handle; the select argument is the
bare string NDVI, the chain denotes exactly the scenario query's filters,
and getInfo leaves the collection value unchanged and still inspectable. -/
theorem script_single_query (sess : Option Session) (r : Remote) :
    collection.id = "COPERNICUS/S2_SR" ∧
    collection.ops = [EEOp.filterDate "2018-01-01" "2018-01-02",
      EEOp.filterBounds { lon := -1221, lat := 372 },
      EEOp.select (BandArg.str "NDVI")] ∧
    (scriptRun sess r).2 = collection ∧
    collection.ops.map EEOp.toFilter = c1ConcreteQuery.filters ∧
    c1ConcreteQuery.collectionId = collection.id :=
  ⟨rfl, rfl, rfl, rfl, rfl⟩

/-- C1: the scenario pipeline create, withDateRange, withSpatialFilter,
withBands resolves to a QueryResult whose every entry carries only the NDVI
band, is dated within the given range, and intersects the given point. -/
theorem scenario_resolve (sess : Session) (r : Remote) (q : Query)
    (res : QueryResult) (hq : c1Pipeline = .ok q)
    (hres : resolve (some sess) r q = .ok res) :
    ∀ en ∈ res.entries,
      (∀ b ∈ en.bands, b = "NDVI") ∧
      (strLe "2018-01-01" en.date = true ∧
        strLe en.date "2018-01-02" = true) ∧
      en.region.containsPoint { lon := -1221, lat := 372 } = true := by
  have h0 : c1Pipeline = Except.ok c1ConcreteQuery := rfl
  rw [h0] at hq
  injection hq with hq2
  subst hq2
  by_cases hv : sess.valid = true
  · by_cases hr : r.reachable = true
    · simp only [resolve, hv, hr, if_true, c1ConcreteQuery, List.foldl] at hres
      injection hres with hres2
      subst hres2
      intro en hen
      simp only [applyFilter, List.mem_map, List.mem_filter,
        Bool.and_eq_true, decide_eq_true_eq] at hen
      obtain ⟨a, ⟨⟨⟨_, hd1, hd2⟩, hspat⟩, _⟩, rfl⟩ := hen
      refine ⟨?_, ⟨hd1, hd2⟩, hspat⟩
      intro b hb
      simp only [List.mem_filter, decide_eq_true_eq, List.mem_singleton] at hb
      exact hb.2
    · simp [resolve, hv, hr] at hres
  · simp [resolve, hv] at hres

/-- Witness for scenario_resolve: resolving the scenario query against
c1Remote with a valid session returns exactly the NDVI-only entry, which
satisfies the scenario's three properties. -/
theorem scenario_resolve_witness :
    (∀ b ∈ c1ResultEntry.bands, b = "NDVI") ∧
    (strLe "2018-01-01" c1ResultEntry.date = true ∧
      strLe c1ResultEntry.date "2018-01-02" = true) ∧
    c1ResultEntry.region.containsPoint { lon := -1221, lat := 372 } = true :=
  scenario_resolve { valid := true } c1Remote c1ConcreteQuery
    { entries := [c1ResultEntry] } rfl rfl c1ResultEntry
    (by simp [c1ResultEntry, c1Entry])

end Esa
